import Mathlib

/-!
Verification of the BuildLink embedding gateway
(`src/python_backend/main.py`), shallowly embedded in Lean 4.

The HTTP layer and the external encoder libraries are treated as
parameters of the model: the sentence-transformers capability is a
function from a model name and a text to either an embedding vector or
an error message, and pydantic request validation is made explicit.
Embedding-vector entries are carried as rationals in place of floats,
since the gateway never computes on the values and only passes them
through unchanged.
-/

namespace BuildLink

/-- The `Literal['huggingface', 'openai', 'claude']` provider enum of the
pydantic model `EmbedRequest` in `main.py`. -/
inductive Provider where
  | huggingface
  | openai
  | claude
deriving DecidableEq, Repr

/-- A validated request body, mirroring the pydantic model `EmbedRequest`:
`text : str` (required, any string), `provider` with default
`'huggingface'`, and `model : str = ''`. -/
structure EmbedRequest where
  text : String
  provider : Provider
  model : String
deriving DecidableEq, Repr

/-- A raw JSON request body before pydantic validation: each field may be
absent. -/
structure RawRequest where
  text : Option String
  provider : Option String
  model : Option String
deriving DecidableEq, Repr

/-- Pydantic validation errors for `EmbedRequest`: a missing required
`text` field, or a `provider` value outside the `Literal` enum. -/
inductive ValidationError where
  | missingText
  | invalidProvider (given : String)
deriving DecidableEq, Repr

/-- Parsing a provider string against the `Literal` enum annotation. -/
def parseProvider : String → Option Provider
  | "huggingface" => some Provider.huggingface
  | "openai" => some Provider.openai
  | "claude" => some Provider.claude
  | _ => none

/-- Pydantic validation of a raw body against `EmbedRequest`: `text` is
required (any string, the empty string included), `provider` must be one
of the three literals and defaults to `'huggingface'` when absent, and
`model` defaults to `''`.  FastAPI surfaces a validation failure as an
HTTP 422 response carrying the list of errors; the handler never runs. -/
def validateRequest (r : RawRequest) : Except (List ValidationError) EmbedRequest :=
  match r.text, r.provider with
  | some t, none => Except.ok ⟨t, Provider.huggingface, r.model.getD ""⟩
  | some t, some p =>
    match parseProvider p with
    | some pv => Except.ok ⟨t, pv, r.model.getD ""⟩
    | none => Except.error [ValidationError.invalidProvider p]
  | none, none => Except.error [ValidationError.missingText]
  | none, some p =>
    match parseProvider p with
    | some _ => Except.error [ValidationError.missingText]
    | none => Except.error [ValidationError.missingText, ValidationError.invalidProvider p]

/-- An embedding vector.  Entries are modelled as rationals: the gateway
performs no arithmetic on them, it only forwards the list produced by
the encoder. -/
abbrev Embedding := List Rat

/-- The external sentence-transformers capability:
`SentenceTransformer(model_name).encode(text)`, yielding a vector or
raising with a message.  Construction and encoding failures are folded
together, since the gateway handles neither. -/
def SentenceEncoder : Type := String → String → Except String Embedding

/-- Observable side effects of one request: constructing a fresh local
encoder instance for a model name, or invoking a remote provider API. -/
inductive Event where
  | constructEncoder (modelName : String)
  | remoteCall (provider : String) (modelName : String) (text : String)
deriving DecidableEq, Repr

/-- Module-level state created at import time in `main.py`: the eagerly
loaded `hf_model = SentenceTransformer('all-MiniLM-L6-v2')`, recorded by
its model name, and `claude_client`, recorded by its api key. -/
structure GlobalState where
  hf_model : String
  claude_client_key : String
deriving DecidableEq, Repr

/-- The module state right after startup: `hf_model` loaded for
`'all-MiniLM-L6-v2'` and `claude_client` built from the (possibly empty)
`CLAUDE_API_KEY` environment value, here taken as `''`. -/
def startupState : GlobalState := ⟨"all-MiniLM-L6-v2", ""⟩

/-- The outcome of one request as observed by the client:
a 200 body `{embedding, provider, model}`, an `HTTPException` with a
status and a detail string, a pydantic validation failure (FastAPI turns
it into an HTTP 422 response, the status recorded here), or an exception
that escapes the handler uncaught (FastAPI answers with a generic
500 Internal Server Error whose body does not carry the message). -/
inductive EmbedResult where
  | ok (embedding : Embedding) (provider : String) (model : String)
  | httpError (status : Nat) (detail : String)
  | validationError (status : Nat) (errors : List ValidationError)
  | uncaught (msg : String)
deriving DecidableEq, Repr

/-- The full effect of one call: the module state afterwards, the side
effects performed, and the response. -/
structure StepResult where
  state : GlobalState
  events : List Event
  response : EmbedResult
deriving DecidableEq, Repr

/-- `req.model or 'all-MiniLM-L6-v2'`: Python `or` treats the empty
string as falsy, so an empty `model` resolves to the default. -/
def resolveHf (m : String) : String :=
  if m = "" then "all-MiniLM-L6-v2" else m

/-- The `POST /embed` handler `embed` of `main.py`.  On the
`huggingface` branch it resolves the model name, constructs a fresh
`SentenceTransformer(model_name)` (never touching the module-level
`hf_model`), encodes the text, and returns the vector with the provider
and model names; an exception from construction or encoding propagates
uncaught, as the branch has no try/except.  The `openai` and `claude`
branches are commented out in the source, so every other provider value
falls through to the final `else`, which raises
`HTTPException(status_code=400, detail='Unknown provider')`. -/
def embed (enc : SentenceEncoder) (st : GlobalState) (req : EmbedRequest) : StepResult :=
  match req.provider with
  | Provider.huggingface =>
    let model_name := resolveHf req.model
    match enc model_name req.text with
    | Except.ok emb =>
      ⟨st, [Event.constructEncoder model_name],
        EmbedResult.ok emb "huggingface" model_name⟩
    | Except.error e =>
      ⟨st, [Event.constructEncoder model_name], EmbedResult.uncaught e⟩
  | _ => ⟨st, [], EmbedResult.httpError 400 "Unknown provider"⟩

/-- The full service path for `POST /embed`: pydantic validation of the
raw body, then the handler on the validated request. -/
def handleRequest (enc : SentenceEncoder) (st : GlobalState) (raw : RawRequest) : StepResult :=
  match validateRequest raw with
  | Except.error errs => ⟨st, [], EmbedResult.validationError 422 errs⟩
  | Except.ok req => embed enc st req

/-- A concrete encoder used in witnesses: succeeds with the empty vector
on every input. -/
def trivialEncoder : SentenceEncoder := fun _ _ => Except.ok []

/-- A concrete encoder used in counterexamples: raises with message
`"boom"` on every input. -/
def failingEncoder : SentenceEncoder := fun _ _ => Except.error "boom"

/-- C1: on the `huggingface` path, whenever the encoder succeeds, the
response's `model` field equals the request's `model` verbatim when
non-empty and `"all-MiniLM-L6-v2"` when empty; the statement holds for
every model string, so no validation of the name takes place. -/
theorem embed_hf_model_field (enc : SentenceEncoder) (st : GlobalState)
    (req : EmbedRequest) (emb : Embedding)
    (hp : req.provider = Provider.huggingface)
    (he : enc (resolveHf req.model) req.text = Except.ok emb) :
    (embed enc st req).response
      = EmbedResult.ok emb "huggingface"
          (if req.model = "" then "all-MiniLM-L6-v2" else req.model) := by
  have h2 : (if req.model = "" then "all-MiniLM-L6-v2" else req.model)
      = resolveHf req.model := rfl
  rw [h2]
  simp [embed, hp, he]

/-- Witness for C1 at two concrete requests: one with an empty `model`
(resolving to the default) and one with a made-up model name (echoed
verbatim). -/
theorem embed_hf_model_field_witness :
    (embed trivialEncoder startupState ⟨"hello", Provider.huggingface, ""⟩).response
        = EmbedResult.ok [] "huggingface" "all-MiniLM-L6-v2" ∧
    (embed trivialEncoder startupState
        ⟨"hello", Provider.huggingface, "not-a-real-model"⟩).response
        = EmbedResult.ok [] "huggingface" "not-a-real-model" := by
  constructor
  · have h := embed_hf_model_field trivialEncoder startupState
      ⟨"hello", Provider.huggingface, ""⟩ [] rfl rfl
    simpa using h
  · have h := embed_hf_model_field trivialEncoder startupState
      ⟨"hello", Provider.huggingface, "not-a-real-model"⟩ [] rfl rfl
    simpa using h

/-- C2 counterexample: a request whose `provider` is the unknown string
`"foo"` is rejected by pydantic's `Literal` validation with a 422
response listing the invalid value — not with the 400 response whose
detail is `"Unknown provider"`. -/
theorem unknown_provider_counterexample :
    (handleRequest trivialEncoder startupState ⟨some "hello", some "foo", none⟩).response
      = EmbedResult.validationError 422 [ValidationError.invalidProvider "foo"] ∧
    (handleRequest trivialEncoder startupState ⟨some "hello", some "foo", none⟩).response
      ≠ EmbedResult.httpError 400 "Unknown provider" := by
  constructor
  · rfl
  · decide

/-- C2 (amended): every request carrying a `text` field and a `provider`
string outside `{huggingface, openai, claude}` is rejected by request
validation with a 422 response listing the invalid provider; `embed`
never runs on it, so the detail `"Unknown provider"` is not produced. -/
theorem unknown_provider_rejected_by_validation (enc : SentenceEncoder)
    (st : GlobalState) (raw : RawRequest) (t p : String)
    (ht : raw.text = some t) (hp : raw.provider = some p)
    (hparse : parseProvider p = none) :
    handleRequest enc st raw
      = ⟨st, [], EmbedResult.validationError 422 [ValidationError.invalidProvider p]⟩ := by
  obtain ⟨rt, rp, rm⟩ := raw
  simp only at ht hp
  subst ht; subst hp
  simp [handleRequest, validateRequest, hparse]

/-- Witness for C2 (amended) at `provider = "foo"`. -/
theorem unknown_provider_rejected_by_validation_witness :
    handleRequest trivialEncoder startupState ⟨some "hello", some "foo", none⟩
      = ⟨startupState, [], EmbedResult.validationError 422
          [ValidationError.invalidProvider "foo"]⟩ :=
  unknown_provider_rejected_by_validation trivialEncoder startupState
    ⟨some "hello", some "foo", none⟩ "hello" "foo" rfl rfl rfl

/-- C3 counterexample: at the concrete request
`{text := "hello", provider := openai, model := ""}` the handler
performs no remote call (empty event list) and answers with the 400
`"Unknown provider"` error instead of an embedding response. -/
theorem embed_openai_counterexample :
    embed trivialEncoder startupState ⟨"hello", Provider.openai, ""⟩
      = ⟨startupState, [], EmbedResult.httpError 400 "Unknown provider"⟩ := by
  rfl

/-- C3 (amended): the `openai` and `claude` branches are disabled
(commented out) in the source, so for these providers `embed` performs
no remote call at all and falls through to the rejection branch,
answering 400 with detail `"Unknown provider"`. -/
theorem embed_remote_branches_disabled (enc : SentenceEncoder)
    (st : GlobalState) (req : EmbedRequest)
    (hp : req.provider = Provider.openai ∨ req.provider = Provider.claude) :
    embed enc st req = ⟨st, [], EmbedResult.httpError 400 "Unknown provider"⟩ := by
  rcases hp with h | h <;> simp [embed, h]

/-- Witness for C3 (amended) at a concrete `openai` request. -/
theorem embed_remote_branches_disabled_witness :
    embed trivialEncoder startupState ⟨"hello", Provider.openai, "text-embedding-ada-002"⟩
      = ⟨startupState, [], EmbedResult.httpError 400 "Unknown provider"⟩ :=
  embed_remote_branches_disabled trivialEncoder startupState
    ⟨"hello", Provider.openai, "text-embedding-ada-002"⟩ (Or.inl rfl)

/-- C4 counterexample: with an encoder that raises `"boom"`, the
huggingface branch lets the exception escape uncaught (generic 500
without the message as detail) instead of producing an
`HTTPException(500, "boom")` carrying the message verbatim. -/
theorem embed_hf_encoder_error_counterexample :
    (embed failingEncoder startupState ⟨"hello", Provider.huggingface, ""⟩).response
      = EmbedResult.uncaught "boom" ∧
    (embed failingEncoder startupState ⟨"hello", Provider.huggingface, ""⟩).response
      ≠ EmbedResult.httpError 500 "boom" := by
  constructor
  · rfl
  · decide

/-- C4 (amended): on the `huggingface` path an exception from the
encoder propagates uncaught out of `embed` — the branch has no
try/except, so the underlying message is not passed through as a
500 detail; the verbatim-message 500 handling exists only in the
disabled `openai`/`claude` branches. -/
theorem embed_hf_encoder_error_propagates (enc : SentenceEncoder)
    (st : GlobalState) (req : EmbedRequest) (e : String)
    (hp : req.provider = Provider.huggingface)
    (he : enc (resolveHf req.model) req.text = Except.error e) :
    (embed enc st req).response = EmbedResult.uncaught e := by
  simp [embed, hp, he]

/-- Witness for C4 (amended) with the always-raising encoder. -/
theorem embed_hf_encoder_error_propagates_witness :
    (embed failingEncoder startupState ⟨"hi", Provider.huggingface, ""⟩).response
      = EmbedResult.uncaught "boom" :=
  embed_hf_encoder_error_propagates failingEncoder startupState
    ⟨"hi", Provider.huggingface, ""⟩ "boom" rfl rfl

/-- C5 counterexample: a body whose `text` field is the empty string
passes pydantic validation (the annotation is plain `str`, with no
non-empty constraint) and the provider dispatch of `embed` runs on it,
producing a 200 embedding response. -/
theorem empty_text_accepted_counterexample :
    validateRequest ⟨some "", some "huggingface", none⟩
      = Except.ok ⟨"", Provider.huggingface, ""⟩ ∧
    (handleRequest trivialEncoder startupState ⟨some "", some "huggingface", none⟩).response
      = EmbedResult.ok [] "huggingface" "all-MiniLM-L6-v2" := by
  constructor
  · rfl
  · rfl

/-- C5 (amended): `text` is required but not constrained to be
non-empty: every string, the empty string included, passes validation
unchanged and `embed`'s provider dispatch runs on the resulting
request. -/
theorem validate_accepts_any_text (t : String) (enc : SentenceEncoder)
    (st : GlobalState) :
    validateRequest ⟨some t, none, none⟩
      = Except.ok ⟨t, Provider.huggingface, ""⟩ ∧
    handleRequest enc st ⟨some t, none, none⟩
      = embed enc st ⟨t, Provider.huggingface, ""⟩ := by
  constructor
  · rfl
  · rfl

/-- C6: with the same (deterministic) encoder, two `huggingface`
requests agreeing on `text` and `model` receive identical responses,
whatever the module state at each call; in particular the embedding
vectors coincide. -/
theorem embed_hf_deterministic (enc : SentenceEncoder)
    (st1 st2 : GlobalState) (r1 r2 : EmbedRequest)
    (hp1 : r1.provider = Provider.huggingface)
    (hp2 : r2.provider = Provider.huggingface)
    (ht : r1.text = r2.text) (hm : r1.model = r2.model) :
    (embed enc st1 r1).response = (embed enc st2 r2).response := by
  simp only [embed, hp1, hp2, ht, hm]
  cases enc (resolveHf r2.model) r2.text <;> rfl

/-- Witness for C6: two calls with identical text and model but
different module states produce the same response. -/
theorem embed_hf_deterministic_witness :
    (embed trivialEncoder startupState ⟨"hello", Provider.huggingface, ""⟩).response
      = (embed trivialEncoder ⟨"other", "key"⟩ ⟨"hello", Provider.huggingface, ""⟩).response :=
  embed_hf_deterministic trivialEncoder startupState ⟨"other", "key"⟩
    ⟨"hello", Provider.huggingface, ""⟩ ⟨"hello", Provider.huggingface, ""⟩
    rfl rfl rfl rfl

/-- C8: `embed` is stateless: every call leaves the module-level state
(`hf_model` and `claude_client`) unchanged, and both the response and
the side effects are independent of that state, so the response is a
function of the request (and the external encoder) alone. -/
theorem embed_stateless (enc : SentenceEncoder) (st st' : GlobalState)
    (req : EmbedRequest) :
    (embed enc st req).state = st ∧
    (embed enc st req).response = (embed enc st' req).response ∧
    (embed enc st req).events = (embed enc st' req).events := by
  cases hreq : req.provider <;>
    simp only [embed, hreq] <;>
    cases enc (resolveHf req.model) req.text <;> simp

/-- C9: on the `huggingface` path every call constructs a fresh encoder
for the resolved model name — the event appears on every call, also
when the resolved name equals the startup default — and the startup
encoder `hf_model` is never consulted: the outcome is the same whatever
encoder the module state holds. -/
theorem embed_hf_fresh_encoder (enc : SentenceEncoder)
    (st st' : GlobalState) (req : EmbedRequest)
    (hp : req.provider = Provider.huggingface) :
    (embed enc st req).events = [Event.constructEncoder (resolveHf req.model)] ∧
    (embed enc st req).response = (embed enc st' req).response := by
  simp only [embed, hp]
  cases enc (resolveHf req.model) req.text <;> simp

/-- Witness for C9 at a request with empty `model`: the resolved name is
exactly the startup default `"all-MiniLM-L6-v2"`, yet a fresh
construction event occurs and the module state is irrelevant. -/
theorem embed_hf_fresh_encoder_witness :
    (embed trivialEncoder startupState ⟨"hello", Provider.huggingface, ""⟩).events
      = [Event.constructEncoder "all-MiniLM-L6-v2"] ∧
    (embed trivialEncoder startupState ⟨"hello", Provider.huggingface, ""⟩).response
      = (embed trivialEncoder ⟨"some-other-model", ""⟩
          ⟨"hello", Provider.huggingface, ""⟩).response :=
  embed_hf_fresh_encoder trivialEncoder startupState ⟨"some-other-model", ""⟩
    ⟨"hello", Provider.huggingface, ""⟩ rfl

/-- C10: for the in-enum providers `openai` and `claude` the handler
reaches the rejection branch — both branches being commented out — and
fails with the 400 error whose detail is `"Unknown provider"`, invoking
no remote endpoint (the event list is empty). -/
theorem embed_enum_remote_providers_rejected (enc : SentenceEncoder)
    (st : GlobalState) (req : EmbedRequest)
    (hp : req.provider = Provider.openai ∨ req.provider = Provider.claude) :
    (embed enc st req).response = EmbedResult.httpError 400 "Unknown provider" ∧
    (embed enc st req).events = [] := by
  rcases hp with h | h <;> simp [embed, h]

/-- Witness for C10 at a concrete `claude` request. -/
theorem embed_enum_remote_providers_rejected_witness :
    (embed trivialEncoder startupState ⟨"hello", Provider.claude, ""⟩).response
      = EmbedResult.httpError 400 "Unknown provider" ∧
    (embed trivialEncoder startupState ⟨"hello", Provider.claude, ""⟩).events = [] :=
  embed_enum_remote_providers_rejected trivialEncoder startupState
    ⟨"hello", Provider.claude, ""⟩ (Or.inr rfl)

end BuildLink
